import Mathlib

/-
Verification of the idb IoT sensing application (tea_meter.py and
parking_light.py) against its natural-language specification.

Shallow embedding conventions:
- Python floats are modelled as rationals (ℚ); exact arithmetic stands in
  for IEEE doubles, which is faithful on every value the claims exercise.
- A raw sensor call that may raise is modelled as an `Option` outcome:
  `none` is an exception, `some v` is a returned value.
- The DHT read returns a pair whose components may each be Python `None`;
  its outcome is `Option (Option ℚ × Option ℚ)`.
- Stateful methods become functions from an explicit state record (the
  instance attributes of the Python object) and per-tick sensor and clock
  inputs to a new state plus an effects record (appended measurement,
  file lines written, log lines emitted, sleep duration).
- A fallible file write is modelled by a boolean `writeOk` input: `true`
  means the `open`/`write` calls succeed, `false` means they raise and
  control jumps to the `except` handlers.
-/

namespace Tea

/-- Configuration constant from tea_meter.py. -/
def DEFAULT_DISTANCE_TO_EMPTY_CUP_BOTTOM_CM : ℚ := 15

/-- Configuration constant from tea_meter.py. -/
def CALIBRATION_READS : ℕ := 5

/-- Configuration constant from tea_meter.py (0.1 seconds). -/
def MIN_READING_INTERVAL_S : ℚ := 1/10

/-- Configuration constant from tea_meter.py: read temperature every 2 cycles. -/
def TEMP_READ_INTERVAL : ℕ := 2

/-- One measurement record, the tuple
`(current_time_str, temperature, humidity, fill_level)` appended in
`process_measurement_cycle`. -/
structure Record where
  time : String
  temp : ℚ
  hum : ℚ
  fill : ℚ
deriving DecidableEq, Repr

/-- The mutable state of a `TeaMeter` instance: the attributes set in
`TeaMeter.__init__` that the measurement pipeline reads and writes. -/
structure MeterState where
  measurement_data : List Record
  is_cup_present : Bool
  is_measuring : Bool
  calibrated_empty_cup_distance : ℚ
  temp_read_counter : ℕ
  last_temp : ℚ
  last_humidity : ℚ
deriving DecidableEq, Repr

/-- The state produced by `TeaMeter.__init__`: empty buffer, no cup, not
measuring, default calibration reference, counter 0, cache seeded with -1.0. -/
def initMeterState : MeterState :=
  { measurement_data := []
    is_cup_present := false
    is_measuring := false
    calibrated_empty_cup_distance := DEFAULT_DISTANCE_TO_EMPTY_CUP_BOTTOM_CM
    temp_read_counter := 0
    last_temp := -1
    last_humidity := -1 }

/-- Outcome of one `self.sonar.get_distance()` call: `none` models the call
raising an exception, `some d` models it returning the distance `d`. -/
abbrev SonarOutcome := Option ℚ

/-- Outcome of one `self.dht_sensor.read()` call: `none` models the call
raising; `some (h, t)` models it returning a `(humidity, temperature)` pair
whose components may each be Python `None`. -/
abbrev DhtOutcome := Option (Option ℚ × Option ℚ)

/-- Embeds `TeaMeter.get_distance_reading`: returns the distance when the sonar call
succeeds and the value is strictly positive, `None` otherwise (exception, or
`distance > 0` false). -/
def get_distance_reading (o : SonarOutcome) : Option ℚ :=
  match o with
  | none => none
  | some d => if 0 < d then some d else none

/-- Embeds `TeaMeter.read_environmental_data`: on a successful read with both values
present, update the cache (`last_humidity`, `last_temp`) and return the fresh
pair; on an exception or a `None` component, return the cached pair and leave
the cache untouched. Returns `((humidity, temperature), new state)` in the
order used in the source. -/
def read_environmental_data (s : MeterState) (o : DhtOutcome) :
    (ℚ × ℚ) × MeterState :=
  match o with
  | some (some h, some t) =>
      ((h, t), { s with last_humidity := h, last_temp := t })
  | some _ => ((s.last_humidity, s.last_temp), s)
  | none => ((s.last_humidity, s.last_temp), s)

/-- The samples `calibrate_empty_cup` collects: one `get_distance_reading`
per loop iteration (`for i in range(CALIBRATION_READS)`), keeping the
non-`None` results. -/
def calibrationSamples (outcomes : List SonarOutcome) : List ℚ :=
  (outcomes.take CALIBRATION_READS).filterMap get_distance_reading

/-- Embeds `TeaMeter.calibrate_empty_cup`: collect up to `CALIBRATION_READS` distance
readings; if any were collected set the reference to their mean and return
`True`, otherwise fall back to the default and return `False`. -/
def calibrate_empty_cup (s : MeterState) (outcomes : List SonarOutcome) :
    MeterState × Bool :=
  let distances := calibrationSamples outcomes
  if distances.isEmpty then
    ({ s with calibrated_empty_cup_distance :=
        DEFAULT_DISTANCE_TO_EMPTY_CUP_BOTTOM_CM }, false)
  else
    ({ s with calibrated_empty_cup_distance :=
        distances.sum / (distances.length : ℚ) }, true)

/-- The wording of the spec of the Calibration Engine (for the C1 comparison):
collect only samples that are valid, where valid means non-error and
NON-NEGATIVE; mean of the valid samples when at least one exists, the default
otherwise. This definition follows the words of the spec, not the source. -/
def calibrationReferenceSpec (outcomes : List SonarOutcome) : ℚ :=
  let valid := (outcomes.take CALIBRATION_READS).filterMap
    (fun o => match o with
      | none => none
      | some d => if 0 ≤ d then some d else none)
  if valid.isEmpty then DEFAULT_DISTANCE_TO_EMPTY_CUP_BOTTOM_CM
  else valid.sum / (valid.length : ℚ)

/-- Embeds `TeaMeter.calculate_fill_level`: calibrated reference minus the current
distance. -/
def calculate_fill_level (s : MeterState) (distance : ℚ) : ℚ :=
  s.calibrated_empty_cup_distance - distance

/-- Round to the nearest integer, ties to even — the rounding that the Python
fixed-point float formatting applies to an exactly representable value. -/
def roundHalfEven (q : ℚ) : ℤ :=
  let f := ⌊q⌋
  let r := q - (f : ℚ)
  if r < 1/2 then f
  else if 1/2 < r then f + 1
  else if f % 2 = 0 then f else f + 1

/-- The Python format `f"{x:.1f}"`: fixed-point with exactly one digit after
the decimal point. -/
def fmt1 (q : ℚ) : String :=
  let n := roundHalfEven (q * 10)
  let s := toString (n.natAbs / 10) ++ "." ++ toString (n.natAbs % 10)
  if n < 0 then "-" ++ s else s

/-- The header constant `self.csv_header` from `TeaMeter.__init__`. -/
def csv_header : String := "Time,Temp,Hum,FillLevelCM"

/-- One CSV data line, `f"{row[0]},{row[1]:.1f},{row[2]:.1f},{row[3]:.1f}"`
from `save_session_data` (without the trailing newline, which every written
line carries). -/
def formatRow (r : Record) : String :=
  r.time ++ "," ++ fmt1 r.temp ++ "," ++ fmt1 r.hum ++ "," ++ fmt1 r.fill

/-- Observable side effects of one `save_session_data` call.
`fileLines = some ls` means the output file was replaced by exactly the
lines `ls`; `none` means the file was not mutated (empty buffer, or the
open/write raised). `loggedTotal` is the "Total measurements" log line,
`loggedSummary` the "(max fill, average fill)" log line. -/
structure SaveEffects where
  madeDirs : Bool
  fileLines : Option (List String)
  loggedTotal : Option ℕ
  loggedSummary : Option (ℚ × ℚ)
deriving DecidableEq, Repr

/-- Embeds `TeaMeter.save_session_data`. Control flow of the source: an empty buffer
logs and returns at once; otherwise the total count is logged, then inside
`try` the data directory is ensured and the file is written (header line,
then one line per record); only after a successful write are the summary
statistics (max and mean of the strictly positive fill levels) computed and
logged. `IOError` and any other exception from the write are caught, so the
trailing `self.measurement_data.clear()` always runs. Returns the effects and
the new buffer contents. -/
def save_session_data (buffer : List Record) (writeOk : Bool) :
    SaveEffects × List Record :=
  if buffer.isEmpty then
    ({ madeDirs := false, fileLines := none, loggedTotal := none,
       loggedSummary := none }, buffer)
  else if writeOk then
    let fill_levels :=
      (buffer.filter (fun r => decide (0 < r.fill))).map Record.fill
    let summary :=
      match fill_levels with
      | [] => none
      | x :: xs =>
          some (xs.foldl max x, (x :: xs).sum / ((x :: xs).length : ℚ))
    ({ madeDirs := true,
       fileLines := some (csv_header :: buffer.map formatRow),
       loggedTotal := some buffer.length,
       loggedSummary := summary }, [])
  else
    ({ madeDirs := true, fileLines := none,
       loggedTotal := some buffer.length, loggedSummary := none }, [])

/-- The contents of the output file after a `save_session_data` call, given its
prior contents: mode "w" truncates, so a successful write replaces the file
wholesale; otherwise the prior contents remain. -/
def fileAfterSave (old : List String) (buffer : List Record)
    (writeOk : Bool) : List String :=
  match (save_session_data buffer writeOk).1.fileLines with
  | some ls => ls
  | none => old

/-- The per-tick inputs `process_measurement_cycle` consumes: the button
read, the DHT outcome (consulted only on throttle ticks), the sonar outcome,
the formatted wall-clock string, the elapsed processing time measured before
the sleep, and whether a file write triggered this tick would succeed. -/
structure CycleInput where
  button : ℕ
  dht : DhtOutcome
  sonar : SonarOutcome
  timeStr : String
  elapsed : ℚ
  writeOk : Bool
deriving DecidableEq, Repr

/-- Observable effects of one `process_measurement_cycle` call. -/
structure CycleEffects where
  appended : Option Record
  sleepTime : ℚ
  saved : Option SaveEffects
deriving DecidableEq, Repr

/-- Embeds `TeaMeter.process_measurement_cycle`: if the button reads 0 the cup was
removed — clear the presence/measuring flags, flush the session and return;
otherwise read (or reuse) the environmental values per the throttle counter,
bump the counter, attempt a distance reading, compute the fill level (or the
-999.0 sentinel on failure), append the record, and compute the sleep that
maintains the minimum interval. -/
def process_measurement_cycle (s : MeterState) (inp : CycleInput) :
    MeterState × CycleEffects :=
  if inp.button = 0 then
    let s1 := { s with is_cup_present := false, is_measuring := false }
    let saveRes := save_session_data s1.measurement_data inp.writeOk
    ({ s1 with measurement_data := saveRes.2 },
     { appended := none, sleepTime := 0, saved := some saveRes.1 })
  else
    let envRes :=
      if s.temp_read_counter % TEMP_READ_INTERVAL = 0 then
        read_environmental_data s inp.dht
      else ((s.last_humidity, s.last_temp), s)
    let humidity := envRes.1.1
    let temperature := envRes.1.2
    let s1 := envRes.2
    let s2 := { s1 with temp_read_counter := s1.temp_read_counter + 1 }
    let fill_level :=
      match get_distance_reading inp.sonar with
      | some d => calculate_fill_level s2 d
      | none => -999
    let r : Record :=
      { time := inp.timeStr, temp := temperature, hum := humidity,
        fill := fill_level }
    let s3 := { s2 with measurement_data := s2.measurement_data ++ [r] }
    let sleep_time := max 0 (MIN_READING_INTERVAL_S - inp.elapsed)
    (s3, { appended := some r, sleepTime := sleep_time, saved := none })

/-- True exactly when a DHT read outcome is a failed fresh read: the call
raised, or one of the returned values is Python `None`. -/
def dhtReadFailed (o : DhtOutcome) : Bool :=
  match o with
  | some (some _, some _) => false
  | some _ => true
  | none => true

/-- Iterate `process_measurement_cycle` over a list of tick inputs. -/
def runCycles (s : MeterState) (inps : List CycleInput) : MeterState :=
  inps.foldl (fun st i => (process_measurement_cycle st i).1) s

end Tea

namespace Park

/-- Configuration constant from parking_light.py. -/
def DISTANCE_THRESHOLD_CM : ℚ := 10

/-- Configuration constant from parking_light.py. -/
def MAX_RETRY_ATTEMPTS : ℕ := 3

/-- The two parking events the monitor can POST. -/
inductive ParkEvent where
  | arrival
  | departure
deriving DecidableEq, Repr

/-- The mutable state of a `ParkingSpotMonitor`: the stored previous
classification and the LED output (`true` = lit). -/
structure MonitorState where
  last_spot_state_taken : Bool
  ledOn : Bool
deriving DecidableEq, Repr

/-- The state produced by `ParkingSpotMonitor.__init__`:
`last_spot_state_taken = False`; the LED level is left as the hardware had
it, modelled here as off. -/
def initMonitorState : MonitorState :=
  { last_spot_state_taken := false, ledOn := false }

/-- Embeds `ParkingSpotMonitor.update_led_state`: LED off when the spot is taken,
on when it is empty. -/
def update_led_state (s : MonitorState) (spot_taken : Bool) : MonitorState :=
  { s with ledOn := !spot_taken }

/-- Retry loop body of `ParkingSpotMonitor.get_sensor_reading`, one recursive
step per remaining attempt: a raised call or a negative value falls through
to the next attempt, a value with `distance >= 0` is returned at once. -/
def getSensorReadingGo : ℕ → List Tea.SonarOutcome → Option ℚ
  | 0, _ => none
  | _ + 1, [] => none
  | n + 1, o :: rest =>
      match o with
      | some d => if 0 ≤ d then some d else getSensorReadingGo n rest
      | none => getSensorReadingGo n rest

/-- Embeds `ParkingSpotMonitor.get_sensor_reading`: up to `MAX_RETRY_ATTEMPTS`
sonar calls, returning the first non-raising reading with `distance >= 0`,
or `None` when all attempts fail. -/
def get_sensor_reading (outcomes : List Tea.SonarOutcome) : Option ℚ :=
  getSensorReadingGo MAX_RETRY_ATTEMPTS outcomes

/-- Embeds `ParkingSpotMonitor.process_sensor_reading`: classify
`taken = (distance <= DISTANCE_THRESHOLD_CM)`; on a change from the stored
previous classification, update the LED, emit exactly one event (`arrival`
when newly taken, `departure` when newly empty) and store the new
classification; otherwise do nothing. `apiOk` is whether
`send_event_to_api` would return `True`; that call swallows every transport
error, so the state update after it is unconditional. -/
def process_sensor_reading (s : MonitorState) (distance : ℚ)
    (apiOk : Bool) : MonitorState × List ParkEvent :=
  let current_spot_taken : Bool := decide (distance ≤ DISTANCE_THRESHOLD_CM)
  if current_spot_taken ≠ s.last_spot_state_taken then
    let s1 := update_led_state s current_spot_taken
    let events := [if current_spot_taken then ParkEvent.arrival
                   else ParkEvent.departure]
    ({ s1 with last_spot_state_taken := current_spot_taken }, events)
  else (s, [])

/-- Embeds the startup-state seeding method of `ParkingSpotMonitor` (renamed: Lean-side token
restrictions): one best-effort `get_sensor_reading`; on a reading seed the
stored classification, set the LED and emit the matching initial event; when
all attempts fail assume the spot empty and light the LED. -/
def init_state (outcomes : List Tea.SonarOutcome) :
    MonitorState × List ParkEvent :=
  match get_sensor_reading outcomes with
  | some d =>
      let spot_taken : Bool := decide (d ≤ DISTANCE_THRESHOLD_CM)
      ({ last_spot_state_taken := spot_taken, ledOn := !spot_taken },
       [if spot_taken then ParkEvent.arrival else ParkEvent.departure])
  | none =>
      ({ last_spot_state_taken := false, ledOn := true }, [])

/-- The handling by the main loop of a list of successful distance readings:
process each in turn, collecting the emitted events in order. -/
def runReadings (s : MonitorState) (ds : List ℚ) :
    MonitorState × List ParkEvent :=
  match ds with
  | [] => (s, [])
  | d :: rest =>
      let step := process_sensor_reading s d true
      let later := runReadings step.1 rest
      (later.1, step.2 ++ later.2)

end Park

/-- Spec-side description of the calibration samples the code actually keeps:
the values of the non-raising reads that are strictly positive. -/
def validPositiveSamples (outcomes : List Tea.SonarOutcome) : List ℚ :=
  (outcomes.filterMap id).filter (fun d => decide (0 < d))

/-- Spec-side description of the fill levels the summary statistics range
over: the fill values of the buffer, keeping the strictly positive ones. -/
def positiveFills (buffer : List Tea.Record) : List ℚ :=
  (buffer.map Tea.Record.fill).filter (fun q => decide (0 < q))

/-- The example buffer of the spec for for the persistence claims:
`[("09:00:00", 22.0, 55.0, 3.2), ("09:00:01", 22.0, 55.0, -999.0)]`. -/
def exBuffer : List Tea.Record :=
  [{ time := "09:00:00", temp := 22, hum := 55, fill := 16/5 },
   { time := "09:00:01", temp := 22, hum := 55, fill := -999 }]

lemma filterMap_get_distance (l : List Tea.SonarOutcome) :
    l.filterMap Tea.get_distance_reading =
      (l.filterMap id).filter (fun d => decide (0 < d)) := by
  induction l with
  | nil => rfl
  | cons o rest ih =>
      cases o with
      | none => simpa [List.filterMap_cons, Tea.get_distance_reading] using ih
      | some d =>
          by_cases hd : (0 : ℚ) < d
          · simp [List.filterMap_cons, Tea.get_distance_reading, hd, ih]
          · simp [List.filterMap_cons, Tea.get_distance_reading, hd, ih]

/-- C1 counterexample: the claim calls a sample valid when it is non-error and
non-negative, but the code (`get_distance_reading`) discards a zero reading
(`distance > 0`). On the outcome sequence `[0, 10, 10, 10, 10]` the
reference is 10 (mean of the four strictly positive samples) while the
claimed mean of the non-negative samples is 8, so the claim as stated is
false at this input. -/
theorem calibration_rounds_zero_cex :
    (Tea.calibrate_empty_cup Tea.initMeterState
        [some 0, some 10, some 10, some 10, some 10]
      ).1.calibrated_empty_cup_distance = 10
    ∧ Tea.calibrationReferenceSpec
        [some 0, some 10, some 10, some 10, some 10] = 8
    ∧ (10 : ℚ) ≠ 8 := by
  have hs : Tea.calibrationSamples [some 0, some 10, some 10, some 10, some 10] =
      [10, 10, 10, 10] := by
    norm_num [Tea.calibrationSamples, Tea.get_distance_reading,
      Tea.CALIBRATION_READS, List.filterMap_cons]
  refine ⟨?_, ?_, by norm_num⟩
  · simp [Tea.calibrate_empty_cup, hs]
    norm_num
  · norm_num [Tea.calibrationReferenceSpec, Tea.CALIBRATION_READS,
      List.filterMap_cons]

/-- C1 (amended): for every sequence of `CALIBRATION_READS` distance read
outcomes, `calibrate_empty_cup` sets the calibration reference to the
arithmetic mean of the valid samples — valid meaning non-error and STRICTLY
POSITIVE — when at least one valid sample exists, and to the configured
default when none does; the returned success flag is true exactly when a
valid sample existed. -/
theorem calibrate_empty_cup_reference (s : Tea.MeterState)
    (outcomes : List Tea.SonarOutcome)
    (hlen : outcomes.length = Tea.CALIBRATION_READS) :
    (Tea.calibrate_empty_cup s outcomes).1.calibrated_empty_cup_distance =
      (if (validPositiveSamples outcomes).isEmpty then
        Tea.DEFAULT_DISTANCE_TO_EMPTY_CUP_BOTTOM_CM
      else (validPositiveSamples outcomes).sum /
        ((validPositiveSamples outcomes).length : ℚ))
    ∧ (Tea.calibrate_empty_cup s outcomes).2 =
        !(validPositiveSamples outcomes).isEmpty := by
  have htake : outcomes.take Tea.CALIBRATION_READS = outcomes :=
    List.take_of_length_le (le_of_eq hlen)
  have hsamp : Tea.calibrationSamples outcomes = validPositiveSamples outcomes := by
    unfold Tea.calibrationSamples validPositiveSamples
    rw [htake, filterMap_get_distance]
  by_cases he : (validPositiveSamples outcomes).isEmpty
  · simp [Tea.calibrate_empty_cup, hsamp, he]
  · simp [Tea.calibrate_empty_cup, hsamp, he]

/-- Witness for C1 at the example given in the spec: reads
`[12.0, -1, 14.0, error, 13.0]` calibrate to `(12 + 14 + 13) / 3 = 13`. -/
theorem calibrate_empty_cup_reference_wit :
    (Tea.calibrate_empty_cup Tea.initMeterState
        [some 12, some (-1), some 14, none, some 13]
      ).1.calibrated_empty_cup_distance = 13 := by
  have h := calibrate_empty_cup_reference Tea.initMeterState
    [some 12, some (-1), some 14, none, some 13] (by rfl)
  rw [h.1]
  norm_num [validPositiveSamples, List.filterMap_cons, List.filter_cons]

/-- C6: `save_session_data` always returns with the measurement buffer
empty — on the empty-buffer early return, on a successful write, and on a
failed write (the `clear` sits after the exception handlers) — and the
buffer is empty at process start (`__init__`). -/
theorem buffer_cleared_after_save (buffer : List Tea.Record)
    (writeOk : Bool) :
    (Tea.save_session_data buffer writeOk).2 = []
    ∧ Tea.initMeterState.measurement_data = [] := by
  constructor
  · by_cases hb : buffer.isEmpty
    · simp [Tea.save_session_data, hb, List.isEmpty_iff.mp hb]
    · by_cases hw : writeOk
      · simp [Tea.save_session_data, hb, hw]
      · simp [Tea.save_session_data, hb, hw]
  · rfl

/-- C9: on every sampling tick (cup still present) the computed sleep equals
`max 0 (MIN_READING_INTERVAL_S - elapsed)`; it is never negative, and
whenever processing consumed at least the minimum interval, no additional
sleep occurs. -/
theorem sleep_never_negative (s : Tea.MeterState) (inp : Tea.CycleInput)
    (hb : inp.button ≠ 0) :
    (Tea.process_measurement_cycle s inp).2.sleepTime =
      max 0 (Tea.MIN_READING_INTERVAL_S - inp.elapsed)
    ∧ 0 ≤ (Tea.process_measurement_cycle s inp).2.sleepTime
    ∧ (Tea.MIN_READING_INTERVAL_S ≤ inp.elapsed →
        (Tea.process_measurement_cycle s inp).2.sleepTime = 0) := by
  have heq : (Tea.process_measurement_cycle s inp).2.sleepTime =
      max 0 (Tea.MIN_READING_INTERVAL_S - inp.elapsed) := by
    simp [Tea.process_measurement_cycle, hb]
  refine ⟨heq, ?_, ?_⟩
  · rw [heq]; exact le_max_left _ _
  · intro hle
    rw [heq, max_eq_left]
    simpa using hle

/-- C2: on every processed reading the classification is
`taken = decide (distance ≤ DISTANCE_THRESHOLD_CM)`; the stored previous
state equals the new classification after the tick whatever the HTTP
report outcome; exactly one event is emitted on a change and none
otherwise; on a change the LED is the inverse of occupancy and otherwise
untouched; and the example sequence `[15, 15, 8, 8, 8, 15]` emits
exactly `arrival` then `departure`. -/
theorem occupancy_edge_events (s : Park.MonitorState) (d : ℚ)
    (apiOk : Bool) :
    (Park.process_sensor_reading s d apiOk).1.last_spot_state_taken =
      decide (d ≤ Park.DISTANCE_THRESHOLD_CM)
    ∧ (Park.process_sensor_reading s d apiOk).2 =
        (if decide (d ≤ Park.DISTANCE_THRESHOLD_CM) = s.last_spot_state_taken
         then []
         else [if decide (d ≤ Park.DISTANCE_THRESHOLD_CM) then
                 Park.ParkEvent.arrival else Park.ParkEvent.departure])
    ∧ (Park.process_sensor_reading s d apiOk).1.ledOn =
        (if decide (d ≤ Park.DISTANCE_THRESHOLD_CM) = s.last_spot_state_taken
         then s.ledOn else !decide (d ≤ Park.DISTANCE_THRESHOLD_CM))
    ∧ (Park.process_sensor_reading s d apiOk).1 =
        (Park.process_sensor_reading s d (!apiOk)).1
    ∧ (Park.runReadings { last_spot_state_taken := false, ledOn := true }
          [15, 15, 8, 8, 8, 15]).2 =
        [Park.ParkEvent.arrival, Park.ParkEvent.departure] := by
  have hrun : (Park.runReadings
      { last_spot_state_taken := false, ledOn := true }
      [15, 15, 8, 8, 8, 15]).2 =
      [Park.ParkEvent.arrival, Park.ParkEvent.departure] := by
    norm_num [Park.runReadings, Park.process_sensor_reading,
      Park.update_led_state, Park.DISTANCE_THRESHOLD_CM]
  by_cases hc : decide (d ≤ Park.DISTANCE_THRESHOLD_CM) =
      s.last_spot_state_taken
  · simp [Park.process_sensor_reading, Park.update_led_state, hc, hrun]
  · simp [Park.process_sensor_reading, Park.update_led_state, hc, hrun]

lemma getSensorReadingGo_take (n : ℕ) (l : List Tea.SonarOutcome) :
    Park.getSensorReadingGo n (l.take n) = Park.getSensorReadingGo n l := by
  induction n generalizing l with
  | zero => simp [Park.getSensorReadingGo]
  | succ n ih =>
      cases l with
      | nil => simp
      | cons o rest =>
          cases o with
          | none => simpa [Park.getSensorReadingGo] using ih rest
          | some d =>
              by_cases hd : (0 : ℚ) ≤ d
              · simp [Park.getSensorReadingGo, hd]
              · simpa [Park.getSensorReadingGo, hd] using ih rest

/-- C7: startup classification consults at most `MAX_RETRY_ATTEMPTS` sonar
outcomes; when a reading `d` is obtained the previous-state value is seeded
with `decide (d ≤ DISTANCE_THRESHOLD_CM)`, the LED set to its inverse and
the matching initial event emitted; when all attempts fail the spot is
assumed empty (LED on, no event). -/
theorem startup_seed_state (outcomes : List Tea.SonarOutcome) :
    Park.get_sensor_reading outcomes =
      Park.get_sensor_reading (outcomes.take Park.MAX_RETRY_ATTEMPTS)
    ∧ (∀ d, Park.get_sensor_reading outcomes = some d →
        Park.init_state outcomes =
          ({ last_spot_state_taken := decide (d ≤ Park.DISTANCE_THRESHOLD_CM),
             ledOn := !decide (d ≤ Park.DISTANCE_THRESHOLD_CM) },
           [if decide (d ≤ Park.DISTANCE_THRESHOLD_CM) then
              Park.ParkEvent.arrival else Park.ParkEvent.departure]))
    ∧ (Park.get_sensor_reading outcomes = none →
        Park.init_state outcomes =
          ({ last_spot_state_taken := false, ledOn := true }, [])) := by
  refine ⟨(getSensorReadingGo_take Park.MAX_RETRY_ATTEMPTS outcomes).symm,
    ?_, ?_⟩
  · intro d hd
    simp [Park.init_state, hd]
  · intro hnone
    simp [Park.init_state, hnone]

/-- Witness for C7: outcomes `[error, -5, 8]` seed the state as taken
(8 ≤ 10), LED off, with an initial `arrival` event. -/
theorem startup_seed_state_wit :
    Park.init_state [none, some (-5), some 8] =
      ({ last_spot_state_taken := true, ledOn := false },
       [Park.ParkEvent.arrival]) := by
  have h8 : Park.get_sensor_reading [none, some (-5), some 8] = some 8 := by
    norm_num [Park.get_sensor_reading, Park.getSensorReadingGo,
      Park.MAX_RETRY_ATTEMPTS]
  have h := (startup_seed_state [none, some (-5), some 8]).2.1 8 h8
  have hdec : decide ((8 : ℚ) ≤ Park.DISTANCE_THRESHOLD_CM) = true := by
    norm_num [Park.DISTANCE_THRESHOLD_CM]
  rw [hdec] at h
  simpa using h

/-- Witness for C9: a tick whose processing took a full second sleeps 0. -/
theorem sleep_never_negative_wit :
    (Tea.process_measurement_cycle Tea.initMeterState
        { button := 1, dht := none, sonar := some 12, timeStr := "10:00:00",
          elapsed := 1, writeOk := true }).2.sleepTime = 0 := by
  have h := sleep_never_negative Tea.initMeterState
    { button := 1, dht := none, sonar := some 12, timeStr := "10:00:00",
      elapsed := 1, writeOk := true } (by decide)
  exact h.2.2 (by norm_num [Tea.MIN_READING_INTERVAL_S])

lemma roundHalfEven_intCast (n : ℤ) : Tea.roundHalfEven (n : ℚ) = n := by
  unfold Tea.roundHalfEven
  norm_num

lemma fmt1_eq (q : ℚ) (n : ℤ) (h : q * 10 = (n : ℚ)) :
    Tea.fmt1 q =
      (if n < 0 then
        "-" ++ (toString (n.natAbs / 10) ++ "." ++ toString (n.natAbs % 10))
      else toString (n.natAbs / 10) ++ "." ++ toString (n.natAbs % 10)) := by
  unfold Tea.fmt1
  rw [h, roundHalfEven_intCast]

lemma fmt1_nonneg_eval (q : ℚ) (m : ℕ) (h : q * 10 = (m : ℚ)) :
    Tea.fmt1 q = toString (m / 10) ++ "." ++ toString (m % 10) := by
  have h2 : q * 10 = (((m : ℤ)) : ℚ) := by rw [h]; norm_num
  rw [fmt1_eq q m h2]
  simp

lemma fmt1_neg_eval (q : ℚ) (m : ℕ) (hm : 0 < m) (h : q * 10 = -(m : ℚ)) :
    Tea.fmt1 q =
      "-" ++ (toString (m / 10) ++ "." ++ toString (m % 10)) := by
  have h2 : q * 10 = ((-(m : ℤ)) : ℚ) := by rw [h]; norm_num
  rw [fmt1_eq q (-(m : ℤ)) h2]
  have hneg : -(m : ℤ) < 0 := by omega
  simp [hneg]

lemma map_fill_filter (buffer : List Tea.Record) :
    (buffer.filter (fun r => decide (0 < r.fill))).map Tea.Record.fill =
      positiveFills buffer := by
  induction buffer with
  | nil => rfl
  | cons r rest ih =>
      simp only [positiveFills, List.map_cons, List.filter_cons] at ih ⊢
      by_cases hr : (0 : ℚ) < r.fill
      · simp [hr, ih]
      · simp [hr, ih]

/-- C3 counterexample: on the example buffer of the spec itself (one positive fill,
one sentinel record) a failing write emits no max/mean summary at all —
the summary log sits after the write inside the `try` block — and on a
successful write the logged count is the total record count 2, not the
number 1 of strictly-positive-fill records. Both contradict the claim that
the summary (count, max, mean) ranges over exactly the positive-fill
records and is emitted independent of write success. -/
theorem save_summary_cex :
    exBuffer ≠ []
    ∧ (exBuffer.filter (fun r => decide (0 < r.fill))).length = 1
    ∧ (Tea.save_session_data exBuffer false).1.loggedSummary = none
    ∧ (Tea.save_session_data exBuffer true).1.loggedTotal = some 2 := by
  refine ⟨by simp [exBuffer], ?_, ?_, ?_⟩
  · norm_num [exBuffer, List.filter_cons]
  · simp [Tea.save_session_data, exBuffer]
  · simp [Tea.save_session_data, exBuffer]

/-- C3 (amended): an empty buffer produces no write, no count log and no
summary; a non-empty buffer always logs the total number of records; when
the file write succeeds the file receives the header plus one row per
record and the max/mean summary ranges over exactly the records with fill
level strictly greater than zero (absent when there are none); when the
write fails, the file is not replaced and no max/mean summary is emitted. -/
theorem save_session_data_behavior (buffer : List Tea.Record)
    (writeOk : Bool) :
    (buffer = [] →
      (Tea.save_session_data buffer writeOk).1.fileLines = none
      ∧ (Tea.save_session_data buffer writeOk).1.loggedTotal = none
      ∧ (Tea.save_session_data buffer writeOk).1.loggedSummary = none)
    ∧ (buffer ≠ [] →
        (Tea.save_session_data buffer writeOk).1.loggedTotal =
          some buffer.length)
    ∧ (buffer ≠ [] → writeOk = true →
        (Tea.save_session_data buffer writeOk).1.fileLines =
          some (Tea.csv_header :: buffer.map Tea.formatRow)
        ∧ (Tea.save_session_data buffer writeOk).1.loggedSummary.map
            Prod.fst = (positiveFills buffer).max?
        ∧ (Tea.save_session_data buffer writeOk).1.loggedSummary.map
            Prod.snd =
            (if (positiveFills buffer).isEmpty then none
             else some ((positiveFills buffer).sum /
               ((positiveFills buffer).length : ℚ))))
    ∧ (buffer ≠ [] → writeOk = false →
        (Tea.save_session_data buffer writeOk).1.fileLines = none
        ∧ (Tea.save_session_data buffer writeOk).1.loggedSummary = none) := by
  by_cases hb : buffer = []
  · subst hb
    simp [Tea.save_session_data]
  · have hbe : buffer.isEmpty = false := by
      cases buffer with
      | nil => exact absurd rfl hb
      | cons r rest => rfl
    refine ⟨fun h => absurd h hb, ?_, ?_, ?_⟩
    · intro _
      cases writeOk with
      | false => simp [Tea.save_session_data, hbe]
      | true => simp [Tea.save_session_data, hbe]
    · intro _ hok
      subst hok
      refine ⟨by simp [Tea.save_session_data, hbe], ?_, ?_⟩
      · simp only [Tea.save_session_data, hbe]
        rw [map_fill_filter]
        cases hp : positiveFills buffer with
        | nil => simp [List.max?]
        | cons x xs => simp [List.max?]
      · simp only [Tea.save_session_data, hbe]
        rw [map_fill_filter]
        cases hp : positiveFills buffer with
        | nil => simp
        | cons x xs => simp
    · intro _ hok
      subst hok
      simp [Tea.save_session_data, hbe]

/-- Witness for C3 on the example buffer from the spec: two records, summary over
the single positive fill only, total count 2, file lines present. -/
theorem save_session_data_behavior_wit :
    (Tea.save_session_data exBuffer true).1.loggedSummary.map Prod.fst =
      some (16/5 : ℚ) := by
  have h := (save_session_data_behavior exBuffer true).2.2.1
    (by simp [exBuffer]) rfl
  rw [h.2.1]
  norm_num [positiveFills, exBuffer, List.filter_cons, List.max?]

/-- C8: when a non-empty buffer is flushed and the write succeeds, the file
holds exactly the header `Time,Temp,Hum,FillLevelCM` followed by one row per
record in insertion order; the content replaces whatever was in the file
before (mode "w" truncates); the data directory is ensured before the
write; and a row is rendered with each field to one decimal. -/
theorem session_file_format (old : List String) (buffer : List Tea.Record)
    (writeOk : Bool) (hne : buffer ≠ []) (hok : writeOk = true) :
    Tea.fileAfterSave old buffer writeOk =
      Tea.csv_header :: buffer.map Tea.formatRow
    ∧ Tea.csv_header = "Time,Temp,Hum,FillLevelCM"
    ∧ (Tea.fileAfterSave old buffer writeOk).length = buffer.length + 1
    ∧ (∀ old2, Tea.fileAfterSave old buffer writeOk =
        Tea.fileAfterSave old2 buffer writeOk)
    ∧ (Tea.save_session_data buffer writeOk).1.madeDirs = true
    ∧ Tea.formatRow { time := "09:00:00", temp := 22, hum := 55, fill := 16/5 }
        = "09:00:00,22.0,55.0,3.2" := by
  subst hok
  have hbe : buffer.isEmpty = false := by
    cases buffer with
    | nil => exact absurd rfl hne
    | cons r rest => rfl
  have hfile : ∀ o : List String, Tea.fileAfterSave o buffer true =
      Tea.csv_header :: buffer.map Tea.formatRow := by
    intro o
    simp [Tea.fileAfterSave, Tea.save_session_data, hbe]
  have h22 : Tea.fmt1 (22 : ℚ) = "22.0" := by
    rw [fmt1_nonneg_eval 22 220 (by norm_num)]; rfl
  have h55 : Tea.fmt1 (55 : ℚ) = "55.0" := by
    rw [fmt1_nonneg_eval 55 550 (by norm_num)]; rfl
  have h32 : Tea.fmt1 (16/5 : ℚ) = "3.2" := by
    rw [fmt1_nonneg_eval (16/5) 32 (by norm_num)]; rfl
  refine ⟨hfile old, rfl, ?_, fun o2 => (hfile old).trans (hfile o2).symm,
    ?_, ?_⟩
  · rw [hfile old]
    simp
  · simp [Tea.save_session_data, hbe]
  · simp only [Tea.formatRow, h22, h55, h32]
    rfl

/-- Witness for C8: flushing the example buffer over stale file content
yields exactly the header and the two formatted rows, the sentinel printed
as -999.0. -/
theorem session_file_format_wit :
    Tea.fileAfterSave ["stale line"] exBuffer true =
      [Tea.csv_header, "09:00:00,22.0,55.0,3.2", "09:00:01,22.0,55.0,-999.0"]
    := by
  have h := session_file_format ["stale line"] exBuffer true
    (by simp [exBuffer]) rfl
  rw [h.1]
  have h22 : Tea.fmt1 (22 : ℚ) = "22.0" := by
    rw [fmt1_nonneg_eval 22 220 (by norm_num)]; rfl
  have h55 : Tea.fmt1 (55 : ℚ) = "55.0" := by
    rw [fmt1_nonneg_eval 55 550 (by norm_num)]; rfl
  have h32 : Tea.fmt1 (16/5 : ℚ) = "3.2" := by
    rw [fmt1_nonneg_eval (16/5) 32 (by norm_num)]; rfl
  have h999 : Tea.fmt1 (-999 : ℚ) = "-999.0" := by
    rw [fmt1_neg_eval (-999) 9990 (by norm_num) (by norm_num)]; rfl
  simp [exBuffer, Tea.formatRow, h22, h55, h32, h999]

lemma read_env_preserves (s : Tea.MeterState) (o : Tea.DhtOutcome) :
    (Tea.read_environmental_data s o).2.calibrated_empty_cup_distance =
      s.calibrated_empty_cup_distance
    ∧ (Tea.read_environmental_data s o).2.measurement_data =
      s.measurement_data
    ∧ (Tea.read_environmental_data s o).2.temp_read_counter =
      s.temp_read_counter := by
  rcases o with _ | ⟨_ | h, _ | t⟩ <;> simp [Tea.read_environmental_data]

lemma read_env_failed (s : Tea.MeterState) (o : Tea.DhtOutcome)
    (hf : Tea.dhtReadFailed o = true) :
    Tea.read_environmental_data s o = ((s.last_humidity, s.last_temp), s) := by
  rcases o with _ | ⟨_ | h, _ | t⟩ <;>
    simp [Tea.read_environmental_data, Tea.dhtReadFailed] at hf ⊢

/-- C4: on a tick with the cup present, (i) when the throttle counter is not
a multiple of `TEMP_READ_INTERVAL` the appended record carries exactly the
cached temperature and humidity; (ii) whenever the DHT outcome of this tick
is a failed read (exception or a `None` component), the cache is unchanged
after the tick and the record carries the prior cached values — whether or
not a fresh read was attempted. -/
theorem env_throttle_cache (s : Tea.MeterState) (inp : Tea.CycleInput)
    (hb : inp.button ≠ 0) :
    (s.temp_read_counter % Tea.TEMP_READ_INTERVAL ≠ 0 →
      (Tea.process_measurement_cycle s inp).2.appended.map Tea.Record.temp =
        some s.last_temp
      ∧ (Tea.process_measurement_cycle s inp).2.appended.map Tea.Record.hum =
        some s.last_humidity)
    ∧ (Tea.dhtReadFailed inp.dht = true →
      (Tea.process_measurement_cycle s inp).1.last_temp = s.last_temp
      ∧ (Tea.process_measurement_cycle s inp).1.last_humidity =
          s.last_humidity
      ∧ (Tea.process_measurement_cycle s inp).2.appended.map Tea.Record.temp =
          some s.last_temp
      ∧ (Tea.process_measurement_cycle s inp).2.appended.map Tea.Record.hum =
          some s.last_humidity) := by
  constructor
  · intro hc
    constructor <;> simp [Tea.process_measurement_cycle, hb, hc]
  · intro hf
    have henv : (if s.temp_read_counter % Tea.TEMP_READ_INTERVAL = 0 then
        Tea.read_environmental_data s inp.dht
      else ((s.last_humidity, s.last_temp), s)) =
        ((s.last_humidity, s.last_temp), s) := by
      by_cases hc : s.temp_read_counter % Tea.TEMP_READ_INTERVAL = 0
      · simp [hc, read_env_failed s inp.dht hf]
      · simp [hc]
    refine ⟨?_, ?_, ?_, ?_⟩ <;>
      simp [Tea.process_measurement_cycle, hb, henv]

/-- Witness for C4: from the initial state, a tick whose DHT call raises
stores the cached temperature -1.0 in the record. -/
theorem env_throttle_cache_wit :
    (Tea.process_measurement_cycle Tea.initMeterState
        { button := 1, dht := none, sonar := some 12, timeStr := "10:00:01",
          elapsed := 0, writeOk := true }).2.appended.map Tea.Record.temp =
      some (-1) := by
  have h := env_throttle_cache Tea.initMeterState
    { button := 1, dht := none, sonar := some 12, timeStr := "10:00:01",
      elapsed := 0, writeOk := true } (by simp)
  exact (h.2 rfl).2.2.1

/-- C5: on a tick with the cup present a distance reading is consumed
unconditionally and a record is always appended: with a successful reading
`d` its fill level is `calibrated reference - d`; with a failed reading it
is the -999.0 sentinel; and the sentinel renders through the one-decimal
CSV formatting as the unchanged "-999.0". -/
theorem fill_level_sentinel (s : Tea.MeterState) (inp : Tea.CycleInput)
    (hb : inp.button ≠ 0) :
    (∀ d, Tea.get_distance_reading inp.sonar = some d →
      (Tea.process_measurement_cycle s inp).2.appended.map Tea.Record.fill =
        some (s.calibrated_empty_cup_distance - d))
    ∧ (Tea.get_distance_reading inp.sonar = none →
      (Tea.process_measurement_cycle s inp).2.appended.map Tea.Record.fill =
        some (-999))
    ∧ Tea.fmt1 (-999) = "-999.0" := by
  refine ⟨?_, ?_, ?_⟩
  · intro d hd
    by_cases hc : s.temp_read_counter % Tea.TEMP_READ_INTERVAL = 0
    · simp [Tea.process_measurement_cycle, hb, hc, hd,
        Tea.calculate_fill_level, (read_env_preserves s inp.dht).1]
    · simp [Tea.process_measurement_cycle, hb, hc, hd,
        Tea.calculate_fill_level]
  · intro hd
    by_cases hc : s.temp_read_counter % Tea.TEMP_READ_INTERVAL = 0 <;>
      simp [Tea.process_measurement_cycle, hb, hc, hd]
  · rw [fmt1_neg_eval (-999) 9990 (by norm_num) (by norm_num)]; rfl

/-- Witness for C5: a raising sonar call yields the sentinel fill level. -/
theorem fill_level_sentinel_wit :
    (Tea.process_measurement_cycle Tea.initMeterState
        { button := 1, dht := none, sonar := none, timeStr := "10:00:02",
          elapsed := 0, writeOk := true }).2.appended.map Tea.Record.fill =
      some (-999) := by
  have h := fill_level_sentinel Tea.initMeterState
    { button := 1, dht := none, sonar := none, timeStr := "10:00:02",
      elapsed := 0, writeOk := true } (by simp)
  exact h.2.1 rfl

lemma cycle_sentinel_step (s : Tea.MeterState) (i : Tea.CycleInput)
    (hbtn : i.button ≠ 0) (hf : Tea.dhtReadFailed i.dht = true)
    (ht : s.last_temp = -1) (hh : s.last_humidity = -1)
    (hbuf : ∀ r ∈ s.measurement_data, r.temp = -1 ∧ r.hum = -1) :
    (Tea.process_measurement_cycle s i).1.last_temp = -1
    ∧ (Tea.process_measurement_cycle s i).1.last_humidity = -1
    ∧ ∀ r ∈ (Tea.process_measurement_cycle s i).1.measurement_data,
        r.temp = -1 ∧ r.hum = -1 := by
  have henv : (if s.temp_read_counter % Tea.TEMP_READ_INTERVAL = 0 then
      Tea.read_environmental_data s i.dht
    else ((s.last_humidity, s.last_temp), s)) =
      ((s.last_humidity, s.last_temp), s) := by
    by_cases hc : s.temp_read_counter % Tea.TEMP_READ_INTERVAL = 0
    · simp [hc, read_env_failed s i.dht hf]
    · simp [hc]
  refine ⟨?_, ?_, ?_⟩
  · have hred : (Tea.process_measurement_cycle s i).1.last_temp =
        s.last_temp := by
      simp [Tea.process_measurement_cycle, hbtn, henv]
    rw [hred]
    exact ht
  · have hred : (Tea.process_measurement_cycle s i).1.last_humidity =
        s.last_humidity := by
      simp [Tea.process_measurement_cycle, hbtn, henv]
    rw [hred]
    exact hh
  · intro r hr
    simp [Tea.process_measurement_cycle, hbtn, henv] at hr
    rcases hr with hr | hr
    · exact hbuf r hr
    · subst hr
      exact ⟨ht, hh⟩

lemma runCycles_sentinel (inps : List Tea.CycleInput) :
    ∀ s : Tea.MeterState,
      (∀ i ∈ inps, i.button ≠ 0 ∧ Tea.dhtReadFailed i.dht = true) →
      s.last_temp = -1 → s.last_humidity = -1 →
      (∀ r ∈ s.measurement_data, r.temp = -1 ∧ r.hum = -1) →
      (Tea.runCycles s inps).last_temp = -1
      ∧ (Tea.runCycles s inps).last_humidity = -1
      ∧ ∀ r ∈ (Tea.runCycles s inps).measurement_data,
          r.temp = -1 ∧ r.hum = -1 := by
  induction inps with
  | nil =>
      intro s _ ht hh hbuf
      exact ⟨ht, hh, hbuf⟩
  | cons i rest ih =>
      intro s hall ht hh hbuf
      have hstep := cycle_sentinel_step s i (hall i (by simp)).1
        (hall i (by simp)).2 ht hh hbuf
      have hrest : ∀ j ∈ rest, j.button ≠ 0 ∧ Tea.dhtReadFailed j.dht = true :=
        fun j hj => hall j (by simp [hj])
      have hrec := ih (Tea.process_measurement_cycle s i).1 hrest
        hstep.1 hstep.2.1 hstep.2.2
      simpa [Tea.runCycles] using hrec

/-- C10: `__init__` seeds the environmental cache with temperature -1.0 and
humidity -1.0; as long as every DHT read fails, every record accumulated
from process start carries temperature -1.0 and humidity -1.0; and -1.0
renders through the shared one-decimal CSV formatting as "-1.0", exactly as
a genuine reading of -1.0 would. -/
theorem cache_seed_sentinel (inps : List Tea.CycleInput)
    (hall : ∀ i ∈ inps, i.button ≠ 0 ∧ Tea.dhtReadFailed i.dht = true) :
    Tea.initMeterState.last_temp = -1
    ∧ Tea.initMeterState.last_humidity = -1
    ∧ (∀ r ∈ (Tea.runCycles Tea.initMeterState inps).measurement_data,
        r.temp = -1 ∧ r.hum = -1)
    ∧ Tea.fmt1 (-1) = "-1.0" := by
  refine ⟨rfl, rfl, ?_, ?_⟩
  · exact (runCycles_sentinel inps Tea.initMeterState hall rfl rfl
      (by simp [Tea.initMeterState])).2.2
  · rw [fmt1_neg_eval (-1) 10 (by norm_num) (by norm_num)]; rfl

/-- Witness for C10: one failing-DHT tick from process start leaves a buffer
whose every record reads temperature -1 and humidity -1. -/
theorem cache_seed_sentinel_wit :
    ((Tea.runCycles Tea.initMeterState
        [{ button := 1, dht := none, sonar := some 12, timeStr := "10:00:03",
           elapsed := 0, writeOk := true }]).measurement_data.all
      (fun r => decide (r.temp = -1) && decide (r.hum = -1))) = true := by
  have h := (cache_seed_sentinel
    [{ button := 1, dht := none, sonar := some 12, timeStr := "10:00:03",
       elapsed := 0, writeOk := true }]
    (by intro i hi; simp at hi; subst hi; exact ⟨by simp, rfl⟩)).2.2.1
  rw [List.all_eq_true]
  intro r hr
  have hm := h r hr
  simp [hm.1, hm.2]
